import Mathlib

/-!
Verification of the sandscape GRBL protocol driver (src/grbl.py, src/state.py,
src/utils.py) against its natural-language specification.

Modelling conventions:
* Python byte/text strings are modelled as `List Char`; `pyStr` injects Lean
  string literals.
* Python floats are modelled as exact rationals (`ℚ`); `round(x, n)` and
  `f"{x:.2f}"` use round-half-to-even, as CPython does on exactly
  representable values.
* Python functions that can raise are modelled with `Option` (`none` = an
  exception escapes).
* Mutation of `self` is modelled by explicit state passing: each method takes
  and returns the record it mutates.
-/

/-- A Python string, as its list of characters. -/
def pyStr (s : String) : List Char := s.data

/-- Helper for `pySplit`: scans the text left to right, cutting at each
occurrence of the (non-empty) separator.  The fuel argument is the number of
characters left to scan; every step consumes at least one character, so fuel
equal to the initial length is enough and the fuel-exhausted branch is
unreachable for the top-level call. -/
def pySplitAux (sep : List Char) : Nat → List Char → List Char → List (List Char)
  | 0, rest, acc => [acc.reverse ++ rest]
  | fuel+1, s, acc =>
    match s with
    | [] => [acc.reverse]
    | c :: rest =>
      if sep.isPrefixOf (c :: rest) then
        acc.reverse :: pySplitAux sep fuel (List.drop sep.length (c :: rest)) []
      else
        pySplitAux sep fuel rest (c :: acc)

/-- Python `s.split(sep)` for a non-empty separator: the list of fragments
between non-overlapping occurrences of `sep`, scanning left to right.  Always
returns at least one fragment. -/
def pySplit (s sep : List Char) : List (List Char) := pySplitAux sep s.length s []

/-- Python `sub in s` for a non-empty `sub`: true iff splitting on `sub`
yields at least two fragments, i.e. `sub` occurs in `s`. -/
def pyContains (s sub : List Char) : Bool := 2 ≤ (pySplit s sub).length

/-- The response kinds of `GrblRespType` in src/grbl.py. -/
inductive GrblRespType
  | NONE
  | RESP_OTHER
  | RESP_STATUS
  | RESP_OK
  | RESP_ALARM
  | RESP_ERROR
  | RESP_STARTUP
  | RESP_CHECKLIMITS
  | RESP_NEEDUNLOCK
  | RESP_UNLOCKED
  | RESP_SETTING
deriving DecidableEq, Repr

/-- The `GrblRespMsg` in src/grbl.py. -/
structure GrblRespMsg where
  msg_type : GrblRespType := .NONE
  msg : List Char := []
  handled : Bool := false
deriving DecidableEq, Repr

/-- The function `grbl_resp_msg_txt_to_obj` in src/grbl.py: order-dependent substring
classification of a received line. -/
def grbl_resp_msg_txt_to_obj (msg_txt : List Char) : GrblRespMsg :=
  { msg := msg_txt
    msg_type :=
      if pyContains msg_txt (pyStr "<") && pyContains msg_txt (pyStr ">") then
        .RESP_STATUS
      else if pyContains msg_txt (pyStr "ok") then
        .RESP_OK
      else if pyContains msg_txt (pyStr "ALARM") then
        .RESP_ALARM
      else if pyContains msg_txt (pyStr "error") then
        .RESP_ERROR
      else if pyContains msg_txt (pyStr "Grbl 1.1h [\x27$\x27 for help]") then
        .RESP_STARTUP
      else if pyContains msg_txt (pyStr "[MSG:Check Limits]") then
        .RESP_CHECKLIMITS
      else if pyContains msg_txt (pyStr "[MSG:\x27$H\x27|\x27$X\x27 to unlock]") then
        .RESP_NEEDUNLOCK
      else if pyContains msg_txt (pyStr "[MSG:Caution: Unlocked]") then
        .RESP_UNLOCKED
      else if pyContains msg_txt (pyStr "=") then
        .RESP_SETTING
      else
        .RESP_OTHER }

/-- Round-half-to-even of a rational to an integer, the rounding used by
Python's `round` and `format` on exactly representable values. -/
def roundHalfEven (q : ℚ) : ℤ :=
  let f : ℤ := ⌊q⌋
  let frac : ℚ := q - f
  if frac < 1/2 then f
  else if 1/2 < frac then f + 1
  else if f % 2 = 0 then f else f + 1

/-- Python `round(x, nd)` for a float modelled as a rational. -/
def pyRound (q : ℚ) (nd : ℕ) : ℚ := (roundHalfEven (q * 10 ^ nd) : ℚ) / 10 ^ nd

/-- The `DISH_RADIUS_MM` in src/utils.py. -/
def DISH_RADIUS_MM : ℚ := 280

/-- The `MARBLE_DIAMETER_MM` in src/utils.py. -/
def MARBLE_DIAMETER_MM : ℚ := 14

/-- The `R_MIN` in src/utils.py. -/
def R_MIN : ℚ := 0

/-- The `R_MAX` in src/utils.py. -/
def R_MAX : ℚ := DISH_RADIUS_MM - MARBLE_DIAMETER_MM / 2

/-- The `Phase` enum in src/state.py. -/
inductive Phase
  | SETUP
  | SENSE
  | THINK
  | ACT
  | ITERATE
deriving DecidableEq, Repr

/-- The `LimitsHit` dataclass in src/state.py, with its field defaults. -/
structure LimitsHit where
  soft_r_min : Bool := true
  soft_r_max : Bool := true
  hard_r_min : Bool := true
  hard_r_max : Bool := true
  theta_zero : Bool := false
deriving DecidableEq, Repr

/-- The `Grbl` dataclass in src/state.py, with its field defaults. -/
structure Grbl where
  status : List Char := []
  mpos_r : ℚ := 0
  mpos_t : ℚ := 0
  feed_rate : ℚ := 0
  planner_buffer : ℤ := 15
  rx_buffer : ℚ := 128
  pnX : Bool := false
  pnY : Bool := false
deriving DecidableEq, Repr

/-- The `Flags` dataclass in src/state.py, with its field defaults. -/
structure Flags where
  input_change : Bool := true
  buffer_space : Bool := false
  need_homing : Bool := false
  need_grbl_hard_reset : Bool := false
  stop_on_theta_switch : Bool := false
  need_calc_next_move : Bool := false
  run_control_loop : Bool := true
  sharp_compensation_on : Bool := false
deriving DecidableEq, Repr

/-- The `Move` dataclass in src/utils.py: optional polar coordinates
(`r` mm, `t` degrees), speed `s`, and the unwrapped angle `t_grbl` actually
sent to the device. -/
structure Move where
  r : Option ℚ := none
  t : Option ℚ := none
  s : Option ℚ := none
  t_grbl : Option ℚ := none
  received : Bool := false
deriving DecidableEq, Repr

/-- The method `Move.is_empty` in src/utils.py: a move is empty iff `r`, `t` and `s` are
all unset. -/
def Move.is_empty (m : Move) : Bool :=
  match m.r, m.t, m.s with
  | none, none, none => true
  | _, _, _ => false

/-- The `State` dataclass in src/state.py, restricted to the fields the
protocol driver reads or writes (`__post_init__` sets `prev_move` and
`next_move` to `Move(r=0, t=0, t_grbl=0)`, the defaults used here). -/
structure State where
  phase : Phase := .SETUP
  limits_hit : LimitsHit := {}
  grbl : Grbl := {}
  flags : Flags := {}
  next_move : Move := { r := some 0, t := some 0, t_grbl := some 0 }
  prev_move : Move := { r := some 0, t := some 0, t_grbl := some 0 }
deriving DecidableEq, Repr

/-- The method `State.check_move` in src/state.py.  The result is `none` when the Python
code raises (its first two statements are `move.r = round(move.r, 3)` and
`move.t = round(move.t, 3)`, which raise `TypeError` when the field is
`None`), and otherwise `some (verdict, move)` where `move` is the in-place
rounded move object. -/
def check_move (st : State) (move : Move) : Option (Bool × Move) :=
  match move.r, move.t with
  | some r0, some t0 =>
    let r : ℚ := pyRound r0 3
    let move := { move with r := some r, t := some (pyRound t0 3) }
    if st.limits_hit.hard_r_min ∧ r < st.grbl.mpos_r then
      some (false, move)
    else if st.limits_hit.hard_r_max ∧ r > st.grbl.mpos_r then
      some (false, move)
    else if ¬ st.flags.need_homing ∧ r ≠ st.grbl.mpos_r then
      if st.limits_hit.soft_r_min ∧ r < st.grbl.mpos_r then
        some (false, move)
      else if st.limits_hit.soft_r_max ∧ r > st.grbl.mpos_r then
        some (false, move)
      else if r > R_MAX ∨ r < R_MIN then
        some (false, move)
      else if move.t = none ∧ move.t_grbl = none then
        some (false, move)
      else
        some (true, move)
    else if move.t = none ∧ move.t_grbl = none then
      some (false, move)
    else
      some (true, move)
  | _, _ => none

/-- The method `GrblCommunicator.set_t_grbl` in src/grbl.py.  The outer `Option` is
`none` when the Python code raises (`next.t - prev.t` with `prev_move.t =
None`; the guard tests `prev_move.t_grbl` twice and never tests
`prev_move.t`).  The inner `Option Bool` is the Python return value: `True`
on the standard path, `False` when `next_move.t` is unset, `None` when the
function falls off the end. -/
def set_t_grbl (st : State) : Option (State × Option Bool) :=
  if st.prev_move.t_grbl ≠ none ∧ st.prev_move.t_grbl ≠ none ∧ st.next_move.t ≠ none then
    match st.next_move.t, st.prev_move.t, st.prev_move.t_grbl with
    | some nt, some pt, some ptg =>
      let delta : ℚ := nt - pt
      let delta : ℚ :=
        if delta > 180 then delta - 360
        else if delta < -180 then delta + 360
        else delta
      some ({ st with next_move := { st.next_move with t_grbl := some (ptg + delta) } },
            some true)
    | _, _, _ => none
  else if st.next_move.t = none then
    some (st, some false)
  else
    some (st, none)


/-- A Python float value: finite (modelled exactly as a rational), an
infinity, or NaN. -/
inductive PyFloat
  | finite (q : ℚ)
  | inf (neg : Bool)
  | nan
deriving DecidableEq, Repr

/-- The characters Python's `str.strip()` removes. -/
def isPySpace (c : Char) : Bool :=
  c = ' ' || c = '\t' || c = '\n' || c = '\r' || c = '\x0b' || c = '\x0c'

/-- Python `s.strip()`. -/
def stripWs (s : List Char) : List Char :=
  ((s.dropWhile isPySpace).reverse.dropWhile isPySpace).reverse

/-- ASCII digit test. -/
def isAsciiDigit (c : Char) : Bool := '0' ≤ c && c ≤ '9'

/-- Numeric value of a most-significant-first ASCII digit string. -/
def digitsVal (ds : List Char) : ℕ :=
  ds.foldl (fun n c => 10 * n + (c.toNat - '0'.toNat)) 0

/-- Python `int(s)` on a text argument: optional surrounding whitespace, an
optional sign, and a non-empty run of decimal digits; anything else raises
(`none`).  Underscore digit grouping and non-ASCII digits are not modelled. -/
def pyInt (s : List Char) : Option ℤ :=
  let s := stripWs s
  match s with
  | '+' :: rest =>
    if rest ≠ [] ∧ rest.all isAsciiDigit then some (digitsVal rest) else none
  | '-' :: rest =>
    if rest ≠ [] ∧ rest.all isAsciiDigit then some (-(digitsVal rest : ℤ)) else none
  | _ => if s ≠ [] ∧ s.all isAsciiDigit then some (digitsVal s) else none

/-- Exponent suffix of a Python float literal: an optional sign and a
non-empty run of digits, scaling the mantissa by the matching power of 10. -/
def pyFloatExp (mant : ℚ) (s : List Char) : Option ℚ :=
  match s with
  | '+' :: rest =>
    if rest ≠ [] ∧ rest.all isAsciiDigit then some (mant * 10 ^ digitsVal rest) else none
  | '-' :: rest =>
    if rest ≠ [] ∧ rest.all isAsciiDigit then some (mant / 10 ^ digitsVal rest) else none
  | _ => if s ≠ [] ∧ s.all isAsciiDigit then some (mant * 10 ^ digitsVal s) else none

/-- Unsigned numeric body of a Python float literal:
`digits [. digits] [e|E exponent]` or `. digits [e|E exponent]`, with at
least one digit in the mantissa. -/
def pyFloatBody (s : List Char) : Option ℚ :=
  let (ip, rest) := s.span isAsciiDigit
  match rest with
  | [] => if ip = [] then none else some (digitsVal ip)
  | '.' :: rest2 =>
    let (fp, rest3) := rest2.span isAsciiDigit
    if ip = [] ∧ fp = [] then none
    else
      let mant : ℚ := digitsVal ip + (digitsVal fp : ℚ) / 10 ^ fp.length
      match rest3 with
      | [] => some mant
      | c :: rest4 => if c = 'e' ∨ c = 'E' then pyFloatExp mant rest4 else none
  | c :: rest4 =>
    if c = 'e' ∨ c = 'E' then
      if ip = [] then none else pyFloatExp (digitsVal ip) rest4
    else none

/-- Python `float(s)` on a text argument: optional surrounding whitespace, an
optional sign, then a numeric body or (case-insensitively) `inf`, `infinity`
or `nan`; anything else raises (`none`).  Underscore digit grouping is not
modelled. -/
def pyFloat (s : List Char) : Option PyFloat :=
  let core : List Char → Bool → Option PyFloat := fun body neg =>
    if body = pyStr "inf" ∨ body = pyStr "infinity" then some (.inf neg)
    else if body = pyStr "nan" then some .nan
    else (pyFloatBody body).map (fun q => .finite (if neg then -q else q))
  match (stripWs s).map Char.toLower with
  | '+' :: rest => core rest false
  | '-' :: rest => core rest true
  | body => core body false

/-- Lookup in a Python dict modelled as an association list with unique
keys. -/
def dictLookup (d : List (ℤ × PyFloat)) (k : ℤ) : Option PyFloat :=
  (d.find? (fun p => p.1 == k)).map (fun p => p.2)

/-- Python `d[k] = v` on a dict modelled as an association list with unique
keys: replaces the value of an existing key in place, otherwise appends. -/
def dictSet (d : List (ℤ × PyFloat)) (k : ℤ) (v : PyFloat) : List (ℤ × PyFloat) :=
  match d with
  | [] => [(k, v)]
  | (k0, v0) :: rest =>
    if k0 = k then (k0, v) :: rest else (k0, v0) :: dictSet rest k v

/-- Python `==` on two dicts: equal key sets with equal values.  (Python's
NaN-inequality corner is not relevant here: no GRBL setting is NaN.) -/
def dictBeq (a b : List (ℤ × PyFloat)) : Bool :=
  a.all (fun p => dictLookup b p.1 == some p.2) &&
    b.all (fun p => dictLookup a p.1 == some p.2)

/-- The `GrblSendMsgType` enum in src/grbl.py. -/
inductive GrblSendMsgType
  | EMPTY
  | CMD
  | MOVE
  | SETTING
deriving DecidableEq, Repr

namespace GrblCmd

/-- The `GrblCmd.EMPTY` byte string in src/grbl.py. -/
def EMPTY : List Char := []

/-- The `GrblCmd.PING` byte string in src/grbl.py. -/
def PING : List Char := pyStr "\n"

/-- The `GrblCmd.STATUS` byte string in src/grbl.py. -/
def STATUS : List Char := pyStr "?"

/-- The `GrblCmd.HOLD` byte string in src/grbl.py. -/
def HOLD : List Char := pyStr "!\n"

/-- The `GrblCmd.RESUME` byte string in src/grbl.py. -/
def RESUME : List Char := pyStr "~\n"

/-- The `GrblCmd.SOFT_RESET` byte string in src/grbl.py (the single byte 0x18). -/
def SOFT_RESET : List Char := ['\x18']

/-- The `GrblCmd.UNLOCK` byte string in src/grbl.py. -/
def UNLOCK : List Char := pyStr "$X\n"

/-- The `GrblCmd.HOME` byte string in src/grbl.py. -/
def HOME : List Char := pyStr "$H\n"

/-- The `GrblCmd.GET_SETTINGS` byte string in src/grbl.py. -/
def GET_SETTINGS : List Char := pyStr "$$\n"

end GrblCmd

/-- The `GrblSendMsg` dataclass in src/grbl.py, with its field defaults. -/
structure GrblSendMsg where
  msg_type : GrblSendMsgType := .EMPTY
  msg : List Char := GrblCmd.EMPTY
  move : Move := {}
  sent : Bool := false
  response : List Char := []
  received : Bool := false
deriving DecidableEq, Repr

/-- The `GRBL_SETTINGS` table in src/grbl.py. -/
def GRBL_SETTINGS : List (ℤ × PyFloat) :=
  [(0, .finite 10), (1, .finite 25), (2, .finite 0), (3, .finite 4),
   (4, .finite 0), (5, .finite 0), (6, .finite 0), (10, .finite 255),
   (11, .finite 0.010), (12, .finite 0.002), (13, .finite 0), (20, .finite 0),
   (21, .finite 1), (22, .finite 1), (23, .finite 3), (24, .finite 100.000),
   (25, .finite 3000.000), (26, .finite 250), (27, .finite 8.000),
   (30, .finite 1000), (31, .finite 0), (32, .finite 0),
   (100, .finite 40.000), (101, .finite 40.000), (102, .finite 22.222),
   (110, .finite 10000.000), (111, .finite 10000.000), (112, .finite 10000.000),
   (120, .finite 50.000), (121, .finite 50.000), (122, .finite 10.000),
   (130, .finite 550.000), (131, .finite 345.000), (132, .finite 200.000)]

/-- Two-decimal fixed-point rendering of a rational, as Python
`f"{x:.2f}"` does for exactly representable values (round-half-to-even;
the sign of a negative zero is not modelled). -/
def fmt2 (q : ℚ) : List Char :=
  let n : ℤ := roundHalfEven (q * 100)
  let sign : List Char := if n < 0 then pyStr "-" else []
  let m : ℕ := n.natAbs
  sign ++ Nat.toDigits 10 (m / 100) ++ pyStr "." ++
    (if m % 100 < 10 then pyStr "0" else []) ++ Nat.toDigits 10 (m % 100)

/-- The function `format_move` in src/grbl.py: renders `"G1 X<r> Z<t_grbl> F<s>\n"` with
two-decimal formatting; raises (`none`) when a formatted field is unset. -/
def format_move (move : Move) : Option (List Char) :=
  match move.r, move.t_grbl, move.s with
  | some r, some tg, some s =>
    some (pyStr "G1 X" ++ fmt2 r ++ pyStr " Z" ++ fmt2 tg ++ pyStr " F" ++
      fmt2 s ++ pyStr "\n")
  | _, _, _ => none

/-- The `GrblCommunicator` dataclass in src/grbl.py, restricted to the fields
its protocol logic reads or writes.  `run_control_loop` models the attribute
that `handle_grbl_response` assigns on a fatal error response. -/
structure GrblCommunicator where
  state : State := {}
  need_reset : Bool := false
  need_ping : Bool := false
  need_status : Bool := false
  need_unlock : Bool := false
  need_send_setting : Bool := false
  need_get_settings : Bool := false
  need_send_next_move : Bool := false
  expecting_extra_msg : Bool := false
  curr_grbl_settings : List (ℤ × PyFloat) := []
  last_grbl_resp : GrblRespMsg := {}
  next_grbl_msg : GrblSendMsg := {}
  prev_grbl_msg : GrblSendMsg := {}
  run_control_loop : Bool := true
deriving DecidableEq, Repr


/-- The setting-line fragment of `handle_grbl_response` in src/grbl.py
(lines `msg = resp.split("$")[1]`, `key = int(msg.split("=")[0])`,
`value = float(msg.split("=")[1])`): `none` when any of these raises
(IndexError on a missing fragment, ValueError from `int`/`float`). -/
def parseSettingLine (txt : List Char) : Option (ℤ × PyFloat) :=
  match (pySplit txt (pyStr "$")).get? 1 with
  | none => none
  | some seg =>
    let parts := pySplit seg (pyStr "=")
    match pyInt (parts.getD 0 []) with
    | none => none
    | some k =>
      match parts.get? 1 with
      | none => none
      | some vtxt =>
        match pyFloat vtxt with
        | none => none
        | some v => some (k, v)

/-- A parsed GRBL status report. -/
structure GrblStatusReport where
  state : List Char
  mpos_r : ℚ
  mpos_t : ℚ
  feed : ℚ
  planner : ℤ
  rx : ℚ
  pn : Option (List Char)
deriving DecidableEq, Repr

/-- A signed finite decimal number, for status-report fields. -/
def qOfTxt (s : List Char) : Option ℚ :=
  match pyFloat s with
  | some (.finite q) => some q
  | _ => none

/-- Modelled from the spec: the helper `parse_grbl_status` is imported from
`parse_grbl_status.py`, a module that is not in the repository snapshot.
Per the specification's status-report grammar (a line containing `<...>`
with fields `State`, `MPos` with two numeric components, `FeedRate`,
planner/RX buffer occupancy, and an optional `Pn:` substring of tripped-pin
letters, e.g. `<Idle|MPos:12.000,45.000|FR:0|Bf:15,128>`), this parses the
text between `<` and `>` into its fields; `none` when the grammar does not
match. -/
def parse_grbl_status (msg : List Char) : Option GrblStatusReport :=
  match (pySplit msg (pyStr "<")).get? 1 with
  | none => none
  | some inner0 =>
    match (pySplit inner0 (pyStr ">")).get? 0 with
    | none => none
    | some inner =>
      let fields := pySplit inner (pyStr "|")
      match fields.get? 0,
            fields.find? (fun f => (pyStr "MPos:").isPrefixOf f),
            fields.find? (fun f => (pyStr "FR:").isPrefixOf f),
            fields.find? (fun f => (pyStr "Bf:").isPrefixOf f) with
      | some stateF, some mposF, some frF, some bfF =>
        let coords := pySplit (mposF.drop 5) (pyStr ",")
        let bufs := pySplit (bfF.drop 3) (pyStr ",")
        match (coords.get? 0).bind qOfTxt, (coords.get? 1).bind qOfTxt,
              qOfTxt (frF.drop 3), (bufs.get? 0).bind pyInt,
              (bufs.get? 1).bind qOfTxt with
        | some r, some t, some fr, some p, some rx =>
          some { state := stateF, mpos_r := r, mpos_t := t, feed := fr,
                 planner := p, rx := rx,
                 pn := (fields.find? (fun f => (pyStr "Pn:").isPrefixOf f)).map
                   (fun f => f.drop 3) }
        | _, _, _, _, _ => none
      | _, _, _, _ => none

/-- The method `GrblCommunicator.update_state_from_grbl_msg` in src/grbl.py: integrates
a status report into the state and recomputes the limit flags
(`soft_r_min = mpos_r <= R_MIN`, `soft_r_max = mpos_r >= R_MAX`, hard flags
from the `Pn` pin letters). -/
def update_state_from_grbl_msg (st : State) (grbl_msg : List Char) : Option State :=
  match parse_grbl_status grbl_msg with
  | none => none
  | some d =>
    let grbl := { st.grbl with
      status := d.state, mpos_r := d.mpos_r, mpos_t := d.mpos_t,
      feed_rate := d.feed, planner_buffer := d.planner, rx_buffer := d.rx }
    let grbl :=
      match d.pn with
      | some pn => { grbl with pnX := pn.contains 'X', pnY := pn.contains 'Y' }
      | none => { grbl with pnX := false, pnY := false }
    let limits := { st.limits_hit with
      soft_r_min := decide (grbl.mpos_r ≤ R_MIN)
      soft_r_max := decide (grbl.mpos_r ≥ R_MAX)
      hard_r_min := grbl.pnX
      hard_r_max := grbl.pnY }
    some { st with grbl := grbl, limits_hit := limits }

/-- The trailing `if isgood:` block of `GrblCommunicator.handle_grbl_response`
in src/grbl.py: on success, mark the in-flight message received; if it was a
Move, mark the move received and clear need_send_next_move; clear need_unlock
after an Unlock, need_reset after a soft reset, need_send_setting after a
Setting. -/
def apply_isgood (isgood : Bool) (gc : GrblCommunicator) : GrblCommunicator :=
  if isgood then
    let gc := { gc with next_grbl_msg :=
      { gc.next_grbl_msg with received := true, response := gc.last_grbl_resp.msg } }
    let gc :=
      if gc.next_grbl_msg.msg_type = .MOVE then
        { gc with
          state := { gc.state with
            next_move := { gc.state.next_move with received := true } }
          need_send_next_move := false }
      else gc
    let gc := if gc.next_grbl_msg.msg = GrblCmd.UNLOCK then { gc with need_unlock := false } else gc
    let gc := if gc.next_grbl_msg.msg = GrblCmd.SOFT_RESET then { gc with need_reset := false } else gc
    if gc.next_grbl_msg.msg_type = .SETTING then { gc with need_send_setting := false } else gc
  else gc

/-- The method `GrblCommunicator.handle_grbl_response` in src/grbl.py: applies the
effects of the last classified response given the in-flight message, then
runs the `isgood` block.  `none` when the Python code raises (only possible
in the setting-value branch and on an unparsable status report). -/
def handle_grbl_response (gc0 : GrblCommunicator) : Option GrblCommunicator :=
  let gc := { gc0 with next_grbl_msg :=
    { gc0.next_grbl_msg with response := gc0.last_grbl_resp.msg } }
  match gc.last_grbl_resp.msg_type with
  | .RESP_SETTING =>
    match parseSettingLine gc.last_grbl_resp.msg with
    | none => none
    | some (k, v) =>
      some (apply_isgood true
        { gc with
          curr_grbl_settings := dictSet gc.curr_grbl_settings k v
          need_get_settings := false
          expecting_extra_msg := true })
  | .RESP_STATUS =>
    if gc.next_grbl_msg.msg = GrblCmd.STATUS then
      match update_state_from_grbl_msg gc.state gc.last_grbl_resp.msg with
      | none => none
      | some st => some (apply_isgood true { gc with need_status := false, state := st })
    else some (apply_isgood false gc)
  | .RESP_OK =>
    let good : Bool :=
      gc.next_grbl_msg.msg = GrblCmd.PING ∨ gc.next_grbl_msg.msg = GrblCmd.HOME ∨
      gc.next_grbl_msg.msg = GrblCmd.HOLD ∨ gc.next_grbl_msg.msg = GrblCmd.RESUME ∨
      gc.next_grbl_msg.msg = GrblCmd.UNLOCK ∨ gc.next_grbl_msg.msg_type = .MOVE ∨
      gc.next_grbl_msg.msg_type = .SETTING ∨ gc.next_grbl_msg.msg_type = .EMPTY
    let gc :=
      if good ∧ gc.next_grbl_msg.msg = GrblCmd.HOME then
        { gc with state := { gc.state with
            flags := { gc.state.flags with need_homing := false } } }
      else gc
    some (apply_isgood good { gc with expecting_extra_msg := false })
  | .RESP_ALARM =>
    some (apply_isgood false
      { gc with
        state := { gc.state with grbl := { gc.state.grbl with status := pyStr "Alarm" } }
        need_reset := true, need_unlock := true, need_status := true })
  | .RESP_ERROR =>
    some (apply_isgood false
      { gc with need_reset := true, need_unlock := true, need_status := true,
                run_control_loop := false })
  | .RESP_STARTUP =>
    some (apply_isgood false
      { gc with need_reset := false, need_unlock := true, need_status := true })
  | .RESP_CHECKLIMITS =>
    some (apply_isgood false { gc with need_unlock := true, need_status := true })
  | .RESP_NEEDUNLOCK =>
    some (apply_isgood false { gc with need_unlock := true, need_status := true })
  | .RESP_UNLOCKED =>
    some (apply_isgood false
      { gc with need_unlock := false, need_status := true, expecting_extra_msg := true })
  | .RESP_OTHER =>
    some (apply_isgood false { gc with need_status := true })
  | .NONE =>
    some (apply_isgood false
      { gc with need_reset := true, need_unlock := true, need_status := true })

/-- The method `GrblCommunicator.next_move_to_msg` in src/grbl.py: runs `set_t_grbl`,
then validates the staged move; a valid move becomes the next message, an
invalid one only clears `need_send_next_move` (note: `next_grbl_msg` is left
unchanged in that branch), and an empty move stages an Empty message.
`none` when the Python code raises.  (`state.next_move` is always a `Move`
object in the driver, so the `!= None` test is modelled as true.) -/
def next_move_to_msg (gc00 : GrblCommunicator) : Option GrblCommunicator :=
  match set_t_grbl gc00.state with
  | none => none
  | some (st, _) =>
    let gc := { gc00 with state := st }
    if ¬ st.next_move.is_empty then
      match check_move st st.next_move with
      | none => none
      | some (ok, mv) =>
        let gc := { gc with state := { st with next_move := mv } }
        if ok then
          match format_move mv with
          | none => none
          | some payload =>
            some { gc with next_grbl_msg := { msg_type := .MOVE, msg := payload, move := mv } }
        else
          some { gc with need_send_next_move := false }
    else
      some { gc with next_grbl_msg := { msg_type := .EMPTY }, need_send_next_move := false }

/-- The method `GrblCommunicator.homing_next_msg` in src/grbl.py.  `grbl_homing_on` and
`custom_homing_on` stand for the configuration constants `GRBL_HOMING_ON` and
`CUSTOM_HOMING_ON` from the untracked local configuration module. -/
def homing_next_msg (grbl_homing_on custom_homing_on : Bool)
    (gc0 : GrblCommunicator) : Option GrblCommunicator :=
  let st := gc0.state
  if st.limits_hit.hard_r_min then
    let st := { st with next_move :=
      { r := some (st.grbl.mpos_r + 30), t := some st.grbl.mpos_t, s := some 3000 } }
    match set_t_grbl st with
    | none => none
    | some (st, _) => next_move_to_msg { gc0 with state := st }
  else if st.limits_hit.hard_r_max then
    let st := { st with next_move :=
      { r := some (st.grbl.mpos_r - 30), t := some st.grbl.mpos_t, s := some 3000 } }
    match set_t_grbl st with
    | none => none
    | some (st, _) => next_move_to_msg { gc0 with state := st }
  else
    let gc :=
      if grbl_homing_on && !custom_homing_on then
        { gc0 with next_grbl_msg := { msg_type := .CMD, msg := GrblCmd.HOME } }
      else gc0
    next_move_to_msg gc

/-- The method `GrblCommunicator.generate_msg` in src/grbl.py: stages a Ping first when
`need_ping` is set (clearing the flag), then the phase block for the current
phase runs and assigns `next_grbl_msg` according to its own priority order
(phases Think and Iterate have no block).  `none` when the Python code
raises. -/
def generate_msg (grbl_homing_on custom_homing_on : Bool)
    (gc0 : GrblCommunicator) : Option GrblCommunicator :=
  let gc :=
    if gc0.need_ping then
      { gc0 with next_grbl_msg := { msg_type := .CMD, msg := GrblCmd.PING }
                 need_ping := false }
    else gc0
  match gc.state.phase with
  | .SETUP =>
    if gc.need_reset then
      some { gc with next_grbl_msg := { msg_type := .CMD, msg := GrblCmd.SOFT_RESET } }
    else if gc.need_status then
      some { gc with next_grbl_msg := { msg_type := .CMD, msg := GrblCmd.STATUS } }
    else if gc.need_unlock then
      some { gc with next_grbl_msg := { msg_type := .CMD, msg := GrblCmd.UNLOCK } }
    else if gc.need_get_settings then
      some { gc with next_grbl_msg := { msg_type := .CMD, msg := GrblCmd.GET_SETTINGS } }
    else if gc.need_send_setting then
      some gc
    else if gc.state.flags.need_homing && grbl_homing_on then
      homing_next_msg grbl_homing_on custom_homing_on gc
    else
      some { gc with next_grbl_msg := { msg_type := .EMPTY } }
  | .SENSE =>
    if gc.need_reset then
      some { gc with next_grbl_msg := { msg_type := .CMD, msg := GrblCmd.SOFT_RESET } }
    else if gc.need_status then
      some { gc with next_grbl_msg := { msg_type := .CMD, msg := GrblCmd.STATUS } }
    else
      some { gc with next_grbl_msg := { msg_type := .EMPTY } }
  | .ACT =>
    if gc.need_reset then
      some { gc with next_grbl_msg := { msg_type := .CMD, msg := GrblCmd.SOFT_RESET } }
    else if gc.need_status then
      some { gc with next_grbl_msg := { msg_type := .CMD, msg := GrblCmd.STATUS } }
    else if gc.need_unlock then
      some { gc with next_grbl_msg := { msg_type := .CMD, msg := GrblCmd.UNLOCK } }
    else if gc.need_send_next_move then
      next_move_to_msg gc
    else
      some { gc with next_grbl_msg := { msg_type := .EMPTY } }
  | .THINK => some gc
  | .ITERATE => some gc


/-- Outcome of a `run()` invocation.  `failure` is the `return False` that
follows the timeout branch's `exit()` call in the source; `processExit`
models `exit()` itself terminating the process; `exn` models an uncaught
exception; `hang` models non-termination (the driver spinning forever while
`expecting_extra_msg` is set and nothing arrives). -/
inductive RunOutcome
  | success
  | failure
  | processExit
  | exn
  | hang
deriving DecidableEq, Repr

/-- The queue-draining loop at the top of `GrblCommunicator.run` in
src/grbl.py: classify and handle every already-buffered response line in
arrival order. -/
def drainQueue : GrblCommunicator → List (List Char) → Option GrblCommunicator
  | gc, [] => some gc
  | gc, m :: rest =>
    match handle_grbl_response { gc with last_grbl_resp := grbl_resp_msg_txt_to_obj m } with
    | none => none
    | some gc2 => drainQueue gc2 rest

/-- The main loop of `GrblCommunicator.run` in src/grbl.py.  The device and
the passage of time are abstracted by `env`, the sequence of await results:
`some line` is a response arriving before the per-command deadline, `none`
(or an exhausted list) is the deadline elapsing first.  On a timeout the
source calls `exit()` — the `self.last_grbl_resp = GrblRespMsg()` and
`return False` statements after it are unreachable — so the timeout branch
yields `processExit`.  `queue` is the content of `data_queue` at entry;
lines arriving while the loop sleeps on `expecting_extra_msg` are taken from
`env`.  The homing timeout extension only changes a duration, which the
`env` abstraction subsumes.  Fuel only bounds the recursion; every recursive
call consumes one element of `env`, so `env.length + 1` is enough. -/
def runAux (grbl_homing_on custom_homing_on : Bool) :
    Nat → GrblCommunicator → List (List Char) → List (Option (List Char)) →
    RunOutcome × GrblCommunicator
  | 0, gc, _, _ => (.hang, gc)
  | fuel+1, gc, queue, env =>
    match drainQueue gc queue with
    | none => (.exn, gc)
    | some gc =>
      match generate_msg grbl_homing_on custom_homing_on gc with
      | none => (.exn, gc)
      | some gc =>
        if gc.next_grbl_msg.msg_type ≠ .EMPTY then
          let gc := { gc with next_grbl_msg := { gc.next_grbl_msg with sent := true } }
          match env with
          | [] => (.processExit, gc)
          | none :: _ => (.processExit, gc)
          | some m :: env =>
            match handle_grbl_response { gc with last_grbl_resp := grbl_resp_msg_txt_to_obj m } with
            | none => (.exn, gc)
            | some gc =>
              let gc := { gc with prev_grbl_msg := gc.next_grbl_msg }
              match generate_msg grbl_homing_on custom_homing_on gc with
              | none => (.exn, gc)
              | some gc =>
                if gc.next_grbl_msg.msg_type = .EMPTY ∧ gc.expecting_extra_msg = false then
                  (.success, gc)
                else
                  runAux grbl_homing_on custom_homing_on fuel gc [] env
        else
          if gc.expecting_extra_msg = false then (.success, gc)
          else
            match env with
            | [] => (.hang, gc)
            | none :: env => runAux grbl_homing_on custom_homing_on fuel gc [] env
            | some m :: env => runAux grbl_homing_on custom_homing_on fuel gc [m] env

/-- The method `GrblCommunicator.run` in src/grbl.py: the hard-reconnect step (which
clears the pending flag; the serial reconnect itself is outside the model),
then the main loop. -/
def run (grbl_homing_on custom_homing_on : Bool) (gc : GrblCommunicator)
    (queue : List (List Char)) (env : List (Option (List Char))) :
    RunOutcome × GrblCommunicator :=
  let gc :=
    if gc.state.flags.need_grbl_hard_reset && !gc.need_ping then
      { gc with state := { gc.state with
          flags := { gc.state.flags with need_grbl_hard_reset := false } } }
    else gc
  runAux grbl_homing_on custom_homing_on (env.length + 1) gc queue env

/-- Result of one `sync_settings` invocation in the oracle model: whether it
returned True, the device's settings afterwards, the host's read-back copy,
and how many Setting writes and GetSettings exchanges it issued. -/
structure SyncResult where
  success : Bool
  device : List (ℤ × PyFloat)
  curr : List (ℤ × PyFloat)
  writes : ℕ
  gets : ℕ
deriving DecidableEq, Repr

/-- The method `GrblCommunicator.sync_settings` in src/grbl.py, with the serial `run`
exchanges replaced by a responsive-device oracle: the device is its settings
map; a GetSettings run copies it into `curr_grbl_settings`; a Setting run
for `(key, value)` stores the value at the key.  Mirrors the source control
flow: get and compare; if unequal, write every key of the desired table
serially, then get and compare again. -/
def sync_settings_model (grbl_settings device : List (ℤ × PyFloat)) : SyncResult :=
  let curr := device
  if dictBeq curr grbl_settings then
    { success := true, device := device, curr := curr, writes := 0, gets := 1 }
  else
    let device2 := grbl_settings.foldl (fun d p => dictSet d p.1 p.2) device
    let curr2 := device2
    if dictBeq curr2 grbl_settings then
      { success := true, device := device2, curr := curr2,
        writes := grbl_settings.length, gets := 2 }
    else
      { success := false, device := device2, curr := curr2,
        writes := grbl_settings.length, gets := 2 }

/-! ## Theorems -/

/-- C5 counterexample: the line "ok ALARM" contains "ALARM" and contains
neither "<" nor ">", yet the classifier returns the Ack kind, not Alarm,
because the "ok" pattern is tested first. -/
theorem claim5_counterexample :
    pyContains (pyStr "ok ALARM") (pyStr "ALARM") = true ∧
    ¬(pyContains (pyStr "ok ALARM") (pyStr "<") = true ∧
      pyContains (pyStr "ok ALARM") (pyStr ">") = true) ∧
    (grbl_resp_msg_txt_to_obj (pyStr "ok ALARM")).msg_type = GrblRespType.RESP_OK ∧
    (grbl_resp_msg_txt_to_obj (pyStr "ok ALARM")).msg_type ≠ GrblRespType.RESP_ALARM := by
  decide

/-- C5 (amended): for every input line that contains "ALARM", does not contain
both "<" and ">", and does not contain the substring "ok", the classifier
returns the Alarm kind. -/
theorem claim5_amended (s : List Char)
    (halarm : pyContains s (pyStr "ALARM") = true)
    (hstatus : ¬(pyContains s (pyStr "<") = true ∧ pyContains s (pyStr ">") = true))
    (hok : pyContains s (pyStr "ok") = false) :
    (grbl_resp_msg_txt_to_obj s).msg_type = GrblRespType.RESP_ALARM := by
  have hlt : (pyContains s (pyStr "<") && pyContains s (pyStr ">")) = false := by
    cases h1 : pyContains s (pyStr "<") <;> cases h2 : pyContains s (pyStr ">") <;>
      simp_all
  simp [grbl_resp_msg_txt_to_obj, hlt, hok, halarm]

/-- C5 witness: the amended classification theorem applied to the concrete
alarm line "ALARM:1". -/
theorem claim5_witness :
    (grbl_resp_msg_txt_to_obj (pyStr "ALARM:1")).msg_type = GrblRespType.RESP_ALARM :=
  claim5_amended (pyStr "ALARM:1") (by decide) (by decide) (by decide)

/-- Evaluation helper: Python `round` is the identity on integer values. -/
theorem pyRound_intCast (n : ℤ) (nd : ℕ) : pyRound (n : ℚ) nd = n := by
  have hfl : ⌊((n : ℚ) * 10 ^ nd)⌋ = n * 10 ^ nd := by
    rw [show ((n : ℚ) * 10 ^ nd) = ((n * 10 ^ nd : ℤ) : ℚ) by push_cast; ring]
    exact Int.floor_intCast _
  simp only [pyRound, roundHalfEven, hfl]
  rw [if_pos]
  · push_cast
    field_simp
  · push_cast
    norm_num

/-- C4: with the hard minimum-radius limit tripped and the reported radial
position at 5 (soft limits clear, not homing, target radius within
[R_MIN, R_MAX], angle present), check_move rejects a move to r = 3
(continuing into the limit) and accepts a move to r = 8 (backing away). -/
theorem claim4 :
    (check_move
        { limits_hit := { soft_r_min := false, soft_r_max := false,
                          hard_r_min := true, hard_r_max := false }
          grbl := { mpos_r := 5 }
          flags := { need_homing := false } }
        { r := some 3, t := some 0, s := some 3000 }).map Prod.fst = some false ∧
    (check_move
        { limits_hit := { soft_r_min := false, soft_r_max := false,
                          hard_r_min := true, hard_r_max := false }
          grbl := { mpos_r := 5 }
          flags := { need_homing := false } }
        { r := some 8, t := some 0, s := some 3000 }).map Prod.fst = some true := by
  have h3 : pyRound 3 3 = 3 := by have h := pyRound_intCast 3 3; push_cast at h; exact h
  have h8 : pyRound 8 3 = 8 := by have h := pyRound_intCast 8 3; push_cast at h; exact h
  have h0 : pyRound 0 3 = 0 := by have h := pyRound_intCast 0 3; push_cast at h; exact h
  constructor
  · simp only [check_move]
    norm_num [h3, h0, Option.some_ne_none, R_MAX, R_MIN, DISH_RADIUS_MM, MARBLE_DIAMETER_MM]
  · simp only [check_move]
    norm_num [h8, h0, Option.some_ne_none, R_MAX, R_MIN, DISH_RADIUS_MM, MARBLE_DIAMETER_MM]

/-- C8 (code evaluation): for every state and every move whose wrapped and
unwrapped angles are both unset, check_move raises (modelled as `none`)
instead of returning false: `round(move.t, 3)` runs before the explicit
"not filled correctly" check, so that check is unreachable. -/
theorem claim8 (st : State) (m : Move) (ht : m.t = none) (htg : m.t_grbl = none) :
    check_move st m = none := by
  cases hr : m.r <;> simp [check_move, hr, ht]

/-- C8 witness: check_move raises on the concrete angle-less move
Move(r=0) in the default state. -/
theorem claim8_witness :
    check_move {} { r := some 0, t := none, t_grbl := none } = none :=
  claim8 {} { r := some 0, t := none, t_grbl := none } rfl rfl

/-- C2 counterexample: with prev.theta = 0, prev.t_grbl = 0 and
next.theta = 541, set_t_grbl adjusts the delta of 541 by 360 only once and
stores t_grbl = 181, so |next.t_grbl - prev.t_grbl| = 181 > 180: the claimed
bound does not hold for arbitrary theta values. -/
theorem claim2_counterexample :
    (set_t_grbl { prev_move := { r := some 0, t := some 0, t_grbl := some 0 }
                  next_move := { r := some 0, t := some 541 } }).map
        (fun p => (p.1.next_move.t_grbl, p.2)) = some (some 181, some true) ∧
    ¬ |(181 : ℚ) - 0| ≤ 180 := by
  constructor
  · simp only [set_t_grbl]
    norm_num [Option.some_ne_none]
  · norm_num

/-- C2 (amended): for every state whose previous move has theta and t_grbl
set and whose next move has theta set, set_t_grbl computes
delta = next.theta - prev.theta, adds or subtracts 360 exactly once when
delta is outside [-180, 180], returns True, and sets
next.t_grbl = prev.t_grbl + delta; when additionally
|next.theta - prev.theta| <= 360 (in particular whenever both angles lie in
a common 360-degree window), |next.t_grbl - prev.t_grbl| <= 180 holds. -/
theorem claim2_amended (st : State) (pt ptg nt : ℚ)
    (hpt : st.prev_move.t = some pt) (hptg : st.prev_move.t_grbl = some ptg)
    (hnt : st.next_move.t = some nt) (hwin : |nt - pt| ≤ 360) :
    (set_t_grbl st).map (fun p => (p.1.next_move.t_grbl, p.2)) =
      some (some (ptg + (if nt - pt > 180 then nt - pt - 360
                         else if nt - pt < -180 then nt - pt + 360
                         else nt - pt)), some true) ∧
    |ptg + (if nt - pt > 180 then nt - pt - 360
            else if nt - pt < -180 then nt - pt + 360
            else nt - pt) - ptg| ≤ 180 := by
  constructor
  · simp [set_t_grbl, hpt, hptg, hnt]
  · rw [abs_le] at hwin
    split_ifs with h1 h2 <;> rw [abs_le] <;> constructor <;> push_neg at * <;> linarith

/-- C2 witness: the amended theorem at the specification's example
prev.theta = 170, prev.t_grbl = 170, next.theta = -170, which yields
next.t_grbl = 190. -/
theorem claim2_witness :
    (set_t_grbl { prev_move := { r := some 0, t := some 170, t_grbl := some 170 }
                  next_move := { r := some 0, t := some (-170) } }).map
        (fun p => (p.1.next_move.t_grbl, p.2)) = some (some 190, some true) := by
  have h := (claim2_amended
    { prev_move := { r := some 0, t := some 170, t_grbl := some 170 }
      next_move := { r := some 0, t := some (-170) } }
    170 170 (-170) rfl rfl rfl (by norm_num)).1
  norm_num at h ⊢
  exact h

/-- C1 (code evaluation): a `run` with a single pending need_status in the
Sense phase whose await times out ends in `exit()` (process termination),
not in a `False` return — the `return False` after `exit()` is dead code —
while the motion state is indeed left unchanged up to that point. -/
theorem claim1_timeout_exits :
    (run true true { state := { phase := Phase.SENSE }, need_status := true }
        [] [Option.none]).1 = RunOutcome.processExit ∧
    RunOutcome.processExit ≠ RunOutcome.failure ∧
    (run true true { state := { phase := Phase.SENSE }, need_status := true }
        [] [Option.none]).2.state = { phase := Phase.SENSE } :=
  ⟨rfl, by decide, rfl⟩

/-- When the separator does not occur in the text, Python split yields fewer
than two fragments, so indexing fragment 1 raises. -/
theorem pySplit_get1_eq_none (s sub : List Char) (h : pyContains s sub = false) :
    (pySplit s sub).get? 1 = none := by
  unfold pyContains at h
  rw [List.get?_eq_none]
  simp only [decide_eq_false_iff_not, not_le] at h
  omega

/-- C10: for every line classified as a setting value (it contains "=" and
none of the higher-priority markers) that contains no "$" character, or
whose fragment after "$" does not parse as `<integer>=<float>`, the response
handler raises (modelled as `none`) instead of storing a key/value pair. -/
theorem claim10 (gc : GrblCommunicator) (txt : List Char)
    (hr : gc.last_grbl_resp = grbl_resp_msg_txt_to_obj txt)
    (hcls : (grbl_resp_msg_txt_to_obj txt).msg_type = GrblRespType.RESP_SETTING)
    (hbad : pyContains txt (pyStr "$") = false ∨ parseSettingLine txt = none) :
    handle_grbl_response gc = none := by
  have hmsg : gc.last_grbl_resp.msg = txt := by rw [hr]; rfl
  have htype : gc.last_grbl_resp.msg_type = GrblRespType.RESP_SETTING := by
    rw [hr]; exact hcls
  have hparse : parseSettingLine txt = none := by
    rcases hbad with hb | hb
    · unfold parseSettingLine
      rw [pySplit_get1_eq_none _ _ hb]
    · exact hb
  simp [handle_grbl_response, htype, hmsg, hparse]

/-- C10 witness: the handler raises on the concrete line "X=Y", which is
classified as a setting value but contains no "$". -/
theorem claim10_witness :
    handle_grbl_response { last_grbl_resp := grbl_resp_msg_txt_to_obj (pyStr "X=Y") } = none :=
  claim10 _ (pyStr "X=Y") rfl (by decide) (Or.inl (by decide))

/-- C7: when the in-flight message is the Unlock command and the response is
classified as an Ack, handle_grbl_response marks the message received and
leaves need_unlock and expecting_extra_msg false. -/
theorem claim7 (gc : GrblCommunicator)
    (hresp : gc.last_grbl_resp.msg_type = GrblRespType.RESP_OK)
    (hmsg : gc.next_grbl_msg.msg = GrblCmd.UNLOCK) :
    (handle_grbl_response gc).map
      (fun g => (g.need_unlock, g.expecting_extra_msg, g.next_grbl_msg.received)) =
      some (false, false, true) := by
  have hping : (GrblCmd.UNLOCK = GrblCmd.PING) = False := eq_false (by decide)
  have hhome : (GrblCmd.UNLOCK = GrblCmd.HOME) = False := eq_false (by decide)
  have hhold : (GrblCmd.UNLOCK = GrblCmd.HOLD) = False := eq_false (by decide)
  have hresume : (GrblCmd.UNLOCK = GrblCmd.RESUME) = False := eq_false (by decide)
  have hreset : (GrblCmd.UNLOCK = GrblCmd.SOFT_RESET) = False := eq_false (by decide)
  cases htype : gc.next_grbl_msg.msg_type <;>
    simp [handle_grbl_response, apply_isgood, hresp, hmsg, htype,
          hping, hhome, hhold, hresume, hreset]

/-- C7 witness: the theorem at a concrete communicator whose in-flight
message is Unlock and whose last response is an Ack. -/
theorem claim7_witness :
    (handle_grbl_response
        { last_grbl_resp := { msg_type := GrblRespType.RESP_OK, msg := pyStr "ok" }
          next_grbl_msg := { msg_type := GrblSendMsgType.CMD, msg := GrblCmd.UNLOCK }
          need_unlock := true
          expecting_extra_msg := true }).map
      (fun g => (g.need_unlock, g.expecting_extra_msg, g.next_grbl_msg.received)) =
      some (false, false, true) :=
  claim7 _ rfl rfl

/-- C3 counterexample: with a non-empty message already staged (here the
Unlock command) and a staged next move that fails validation (hard_r_min
tripped, mpos_r = 5, move to r = 3), next_move_to_msg clears
need_send_next_move but leaves next_grbl_msg unchanged — the selected
message is the stale Unlock command, not an empty message. -/
theorem claim3_counterexample :
    (next_move_to_msg
        { state := { limits_hit := { soft_r_min := false, soft_r_max := false,
                                     hard_r_min := true, hard_r_max := false }
                     grbl := { mpos_r := 5 }
                     next_move := { r := some 3, t := some 0, s := some 3000 }
                     prev_move := { r := some 0, t := some 0, t_grbl := some 0 } }
          need_send_next_move := true
          next_grbl_msg := { msg_type := GrblSendMsgType.CMD, msg := GrblCmd.UNLOCK } }).map
      (fun g => (g.need_send_next_move, g.next_grbl_msg.msg_type)) =
      some (false, GrblSendMsgType.CMD) ∧
    GrblSendMsgType.CMD ≠ GrblSendMsgType.EMPTY := by
  have h3 : pyRound 3 3 = 3 := by have h := pyRound_intCast 3 3; push_cast at h; exact h
  have h0 : pyRound 0 3 = 0 := by have h := pyRound_intCast 0 3; push_cast at h; exact h
  constructor
  · simp only [next_move_to_msg]
    norm_num [set_t_grbl, Option.some_ne_none, Move.is_empty, check_move, h3, h0]
  · decide

/-- C3 (amended): when the staged next move is non-empty and fails
validation, next_move_to_msg clears need_send_next_move and stages no Move
message for it, but leaves next_grbl_msg unchanged (it is not reset to an
empty message), so the previously staged message remains selected. -/
theorem claim3_amended (gc : GrblCommunicator) (st : State) (b : Option Bool) (mv : Move)
    (h1 : set_t_grbl gc.state = some (st, b))
    (h2 : st.next_move.is_empty = false)
    (h3 : check_move st st.next_move = some (false, mv)) :
    (next_move_to_msg gc).map (fun g => (g.need_send_next_move, g.next_grbl_msg)) =
      some (false, gc.next_grbl_msg) := by
  simp [next_move_to_msg, h1, h2, h3]

/-- C3 witness: the amended theorem at the counterexample's concrete
communicator. -/
theorem claim3_witness :
    (next_move_to_msg
        { state := { limits_hit := { soft_r_min := false, soft_r_max := false,
                                     hard_r_min := true, hard_r_max := false }
                     grbl := { mpos_r := 5 }
                     next_move := { r := some 3, t := some 0, s := some 3000 }
                     prev_move := { r := some 0, t := some 0, t_grbl := some 0 } }
          need_send_next_move := true
          next_grbl_msg := { msg_type := GrblSendMsgType.CMD, msg := GrblCmd.UNLOCK } }).map
      (fun g => (g.need_send_next_move, g.next_grbl_msg)) =
      some (false, { msg_type := GrblSendMsgType.CMD, msg := GrblCmd.UNLOCK }) := by
  have h3r : pyRound 3 3 = 3 := by have h := pyRound_intCast 3 3; push_cast at h; exact h
  have h0r : pyRound 0 3 = 0 := by have h := pyRound_intCast 0 3; push_cast at h; exact h
  have h := claim3_amended
    { state := { limits_hit := { soft_r_min := false, soft_r_max := false,
                                 hard_r_min := true, hard_r_max := false }
                 grbl := { mpos_r := 5 }
                 next_move := { r := some 3, t := some 0, s := some 3000 }
                 prev_move := { r := some 0, t := some 0, t_grbl := some 0 } }
      need_send_next_move := true
      next_grbl_msg := { msg_type := GrblSendMsgType.CMD, msg := GrblCmd.UNLOCK } }
    { limits_hit := { soft_r_min := false, soft_r_max := false,
                      hard_r_min := true, hard_r_max := false }
      grbl := { mpos_r := 5 }
      next_move := { r := some 3, t := some 0, s := some 3000, t_grbl := some 0 }
      prev_move := { r := some 0, t := some 0, t_grbl := some 0 } }
    (some true)
    { r := some 3, t := some 0, s := some 3000, t_grbl := some 0 }
    (by simp only [set_t_grbl]; norm_num [Option.some_ne_none])
    (by decide)
    (by simp only [check_move]; norm_num [h3r, h0r, Option.some_ne_none])
  exact h

/-- next_move_to_msg never touches the need_ping flag. -/
theorem next_move_to_msg_need_ping (gc g : GrblCommunicator)
    (h : next_move_to_msg gc = some g) : g.need_ping = gc.need_ping := by
  unfold next_move_to_msg at h
  repeat' split at h
  all_goals first
    | exact Option.noConfusion h
    | (injection h with h; subst h; rfl)

/-- homing_next_msg never touches the need_ping flag. -/
theorem homing_next_msg_need_ping (gh ch : Bool) (gc g : GrblCommunicator)
    (h : homing_next_msg gh ch gc = some g) : g.need_ping = gc.need_ping := by
  unfold homing_next_msg at h
  dsimp only at h
  repeat' split at h
  all_goals first
    | exact Option.noConfusion h
    | simpa using next_move_to_msg_need_ping _ _ h

/-- C6 counterexample: in the Setup phase with need_ping set and no other
pending flag, generate_msg stages the Ping and clears the flag, but the
phase block then overwrites the staged message with Empty — no Ping command
is produced, so ping generation does not override the phase-specific
generation. -/
theorem claim6_counterexample :
    (generate_msg true true { state := { phase := Phase.SETUP }, need_ping := true }).map
      (fun g => (g.next_grbl_msg.msg_type, g.need_ping)) =
      some (GrblSendMsgType.EMPTY, false) ∧
    GrblSendMsgType.EMPTY ≠ GrblSendMsgType.CMD := by
  exact ⟨rfl, by decide⟩

/-- C6 (amended): whenever need_ping is set, generate_msg stages a Ping
command and clears need_ping (so need_ping is false in every non-raising
result), but the phase-specific generation then runs and can overwrite the
staged message; the staged Ping is the produced message only when no phase
block overrides it, in particular in the Think and Iterate phases, which
have no generation block. -/
theorem claim6_amended (gh ch : Bool) (gc : GrblCommunicator)
    (hping : gc.need_ping = true) :
    (∀ g, generate_msg gh ch gc = some g → g.need_ping = false) ∧
    ((gc.state.phase = Phase.THINK ∨ gc.state.phase = Phase.ITERATE) →
      generate_msg gh ch gc =
        some { gc with
          next_grbl_msg := { msg_type := GrblSendMsgType.CMD, msg := GrblCmd.PING }
          need_ping := false }) := by
  constructor
  · intro g hg
    simp only [generate_msg, hping, if_true] at hg
    cases hph : gc.state.phase <;> simp only [hph] at hg
    case SETUP =>
      repeat' split at hg
      all_goals first
        | exact Option.noConfusion hg
        | (injection hg with hg; subst hg; rfl)
        | (simpa using homing_next_msg_need_ping gh ch _ _ hg)
    case SENSE =>
      repeat' split at hg
      all_goals first
        | exact Option.noConfusion hg
        | (injection hg with hg; subst hg; rfl)
    case ACT =>
      repeat' split at hg
      all_goals first
        | exact Option.noConfusion hg
        | (injection hg with hg; subst hg; rfl)
        | (simpa using next_move_to_msg_need_ping _ _ hg)
    case THINK =>
      injection hg with hg; subst hg; rfl
    case ITERATE =>
      injection hg with hg; subst hg; rfl
  · intro hphor
    rcases hphor with hph | hph <;> simp [generate_msg, hping, hph]

/-- C6 witness: the amended theorem at a concrete communicator in the Think
phase, where the staged Ping survives. -/
theorem claim6_witness :
    generate_msg true true { state := { phase := Phase.THINK }, need_ping := true } =
      some { state := { phase := Phase.THINK }
             next_grbl_msg := { msg_type := GrblSendMsgType.CMD, msg := GrblCmd.PING }
             need_ping := false } := by
  have h := (claim6_amended true true
    { state := { phase := Phase.THINK }, need_ping := true } rfl).2 (Or.inl rfl)
  exact h

/-- C9: settings synchronization is idempotent for a responsive device that
does not change between calls: if a sync succeeds, a second sync against the
resulting device performs exactly one GetSettings exchange, finds the
read-back settings equal to the desired table, performs zero setting writes,
and returns success with the device unchanged. -/
theorem claim9 (desired device : List (ℤ × PyFloat))
    (h : (sync_settings_model desired device).success = true) :
    sync_settings_model desired (sync_settings_model desired device).device =
      { success := true
        device := (sync_settings_model desired device).device
        curr := (sync_settings_model desired device).device
        writes := 0, gets := 1 } := by
  unfold sync_settings_model at *
  by_cases hb : dictBeq device desired = true
  · simp [hb]
  · simp only [Bool.not_eq_true] at hb
    simp only [hb, Bool.false_eq_true, if_false] at h ⊢
    by_cases hb2 : dictBeq (desired.foldl (fun d p => dictSet d p.1 p.2) device) desired = true
    · simp [hb2]
    · simp only [Bool.not_eq_true] at hb2
      simp [hb2] at h

/-- C9 witness: the idempotence theorem at a concrete one-entry settings
table already present on the device. -/
theorem claim9_witness :
    sync_settings_model [(0, PyFloat.finite 10)]
        (sync_settings_model [(0, PyFloat.finite 10)] [(0, PyFloat.finite 10)]).device =
      { success := true
        device := (sync_settings_model [(0, PyFloat.finite 10)] [(0, PyFloat.finite 10)]).device
        curr := (sync_settings_model [(0, PyFloat.finite 10)] [(0, PyFloat.finite 10)]).device
        writes := 0, gets := 1 } :=
  claim9 [(0, PyFloat.finite 10)] [(0, PyFloat.finite 10)] (by decide)
